import Mathlib

/-!
Shallow embedding of the term1nal SSH web gateway (source files
`term1nal/handlers.py` and `term1nal/conf.py`), with theorems settling the
specification claims.  Bytes are modelled as `Nat` values (0–255) and byte
strings as `List Nat`.
-/

/-! ### Upload pump: `StreamUploadMixin._filter_trailing_carriage_return` -/

/-- CPython `bytes.endswith(suf)`: true iff `suf` is a suffix of `l`,
computed the way CPython does (length comparison, then a tail comparison). -/
def py_endswith (l suf : List Nat) : Bool :=
  decide (suf.length ≤ l.length) && (l.drop (l.length - suf.length) == suf)

/-- CPython `bytes.rpartition(b"\x5cr\x5cn")` restricted to the two-byte
separator `[13, 10]`: splits at the last occurrence, returning the part before
it and the part after it, or `none` when the separator does not occur. -/
def rpartitionCRLF : List Nat → Option (List Nat × List Nat)
  | [] => none
  | a :: rest =>
    match rpartitionCRLF rest with
    | some (pre, post) => some (a :: pre, post)
    | none =>
      if (a :: rest).take 2 = [13, 10] then some ([], rest.drop 1) else none

/-- `StreamUploadMixin._filter_trailing_carriage_return` (handlers.py
lines 126–139): if the chunk ends with `b"\x5cr\x5cn"`, return everything
before the last occurrence of the pair (`data, _, _ = chunk.rpartition(...)`,
where a not-found separator yields empty `data`); otherwise return the chunk
unchanged. -/
def filter_trailing_carriage_return (chunk : List Nat) : List Nat :=
  if py_endswith chunk [13, 10] then
    match rpartitionCRLF chunk with
    | some (pre, _) => pre
    | none => []
  else chunk

theorem py_endswith_crlf_iff (ys : List Nat) :
    py_endswith ys [13, 10] = true ↔ ∃ xs, ys = xs ++ [13, 10] := by
  constructor
  · intro h
    simp only [py_endswith, Bool.and_eq_true, decide_eq_true_eq, beq_iff_eq,
      List.length_cons, List.length_nil] at h
    refine ⟨ys.take (ys.length - 2), ?_⟩
    conv_lhs => rw [← List.take_append_drop (ys.length - 2) ys]
    rw [h.2]
  · rintro ⟨xs, rfl⟩
    simp [py_endswith, List.length_append, Nat.add_sub_cancel, List.drop_left]

theorem rpartitionCRLF_append (xs : List Nat) :
    rpartitionCRLF (xs ++ [13, 10]) = some (xs, []) := by
  induction xs with
  | nil => decide
  | cons a xs ih =>
    simp only [List.cons_append, rpartitionCRLF, List.append_eq, ih]

/-- C3: a chunk ending in the two bytes CR LF has exactly that one trailing
pair removed by `_filter_trailing_carriage_return`; a chunk not ending in
CR LF is forwarded unchanged; interior CR LF pairs are never touched.
Includes the spec's concrete examples: `b"hi\x5cr\x5cn"` becomes `b"hi"`,
`b"hello\x5cn\x5cr\x5cn"` becomes `b"hello\x5cn"`, and
`b"hi\x5cr\x5cnworld"` stays itself. -/
theorem upload_trailing_crlf_trim :
    (∀ xs : List Nat, filter_trailing_carriage_return (xs ++ [13, 10]) = xs) ∧
    (∀ ys : List Nat, py_endswith ys [13, 10] = false →
      filter_trailing_carriage_return ys = ys) ∧
    (∀ ys : List Nat,
      py_endswith ys [13, 10] = false ↔ ¬ ∃ xs, ys = xs ++ [13, 10]) ∧
    filter_trailing_carriage_return [104, 105, 13, 10] = [104, 105] ∧
    filter_trailing_carriage_return [104, 101, 108, 108, 111, 10, 13, 10]
      = [104, 101, 108, 108, 111, 10] ∧
    filter_trailing_carriage_return [104, 105, 13, 10, 119, 111, 114, 108, 100]
      = [104, 105, 13, 10, 119, 111, 114, 108, 100] := by
  refine ⟨?_, ?_, ?_, by decide, by decide, by decide⟩
  · intro xs
    have he : py_endswith (xs ++ [13, 10]) [13, 10] = true :=
      (py_endswith_crlf_iff _).mpr ⟨xs, rfl⟩
    simp only [filter_trailing_carriage_return, he, if_true,
      rpartitionCRLF_append]
  · intro ys h
    simp [filter_trailing_carriage_return, h]
  · intro ys
    rw [← py_endswith_crlf_iff]
    cases h : py_endswith ys [13, 10] <;> simp

/-- Witness for C3: a chunk with only an interior CR LF passes through
unchanged. -/
theorem upload_trailing_crlf_trim_witness :
    filter_trailing_carriage_return [104, 105, 13, 10, 119]
      = [104, 105, 13, 10, 119] :=
  upload_trailing_crlf_trim.2.1 [104, 105, 13, 10, 119] (by decide)

/-! ### Download pump: `DownloadHandler.get` -/

/-- The fixed read size of the download loop:
`chunk_size = 1024 * 1024 * 1` (handlers.py line 349). -/
def chunk_size : Nat := 1024 * 1024 * 1

/-- The download read loop (handlers.py lines 370–383): repeatedly
`chunk = self.fh.recv(chunk_size)`; an empty read ends the loop, otherwise the
chunk is written to the response and the loop continues.  The remote channel
delivers `min(chunk_size, remaining)` bytes of the file per read; the result
is the concatenation of all written chunks. -/
def downloadLoop (file : List Nat) : List Nat :=
  match file with
  | [] => []
  | a :: rest =>
    (a :: rest).take chunk_size ++ downloadLoop ((a :: rest).drop chunk_size)
termination_by file.length
decreasing_by
  simp only [List.length_drop, List.length_cons, chunk_size]
  omega

/-- Outcome of one `DownloadHandler.get` request. -/
structure DlResult where
  notFound : Bool
  body : List Nat
  transferOpened : Bool
  sshClosed : Bool
  crashed : Bool
deriving DecidableEq, Repr

/-- `DownloadHandler.get` (handlers.py lines 348–387) over an abstract remote
host: `probeExit` is the exit status of the probe command
(`ls <remote_file_path>`), `file` the bytes of the remote file.

When the probe exits nonzero, `exec_remote_cmd` raises `HTTPError(404)` before
`self.fh` is assigned; `get` catches it, writes the not-found message and
finishes the response — but does not return, so control falls through to the
header calls and the read loop, where `self.fh` is still `None` and
`self.fh.recv(...)` raises `AttributeError`; `self.ssh_transport_client.close()`
is never reached.  When the probe exits zero, the transfer channel is opened,
the loop streams the file and the one-off SSH client is closed. -/
def download_get (probeExit : Nat) (file : List Nat) : DlResult :=
  if probeExit ≠ 0 then
    { notFound := true, body := [], transferOpened := false,
      sshClosed := false, crashed := true }
  else
    { notFound := false, body := downloadLoop file, transferOpened := true,
      sshClosed := true, crashed := false }

theorem downloadLoop_id (file : List Nat) : downloadLoop file = file := by
  generalize hn : file.length = n
  induction n using Nat.strong_induction_on generalizing file with
  | _ n ih =>
    cases file with
    | nil => simp [downloadLoop]
    | cons a rest =>
      rw [downloadLoop]
      have hlt : ((a :: rest).drop chunk_size).length < (a :: rest).length := by
        simp only [List.length_drop, List.length_cons, chunk_size]
        omega
      rw [ih ((a :: rest).drop chunk_size).length (by omega) _ rfl]
      exact List.take_append_drop _ _

/-- C4: for every remote file, the download pump's read loop reproduces
exactly the original bytes in the HTTP response body (hence in particular for
files of 0, 1, 2^20 and 2^20 + 1 bytes), and the one-off SSH connection is
closed when the loop ends. -/
theorem download_roundtrip (file : List Nat) :
    (download_get 0 file).body = file ∧
    (download_get 0 file).sshClosed = true := by
  constructor
  · simp [download_get, downloadLoop_id]
  · simp [download_get]

/-- C5: a download request whose existence probe exits with status 1 surfaces
the not-found response and never opens the transfer channel, but the auxiliary
SSH connection is not closed and the handler crashes (an `AttributeError` from
`None.recv` after the response was finished), because the `except` branch does
not return. -/
theorem download_probe_failure_eval :
    download_get 1 [] =
      { notFound := true, body := [], transferOpened := false,
        sshClosed := false, crashed := true } := by
  decide

/-! ### Configuration: `term1nal/conf.py` lines 56–58 and handlers.py line 263 -/

/-- `DELAY = 3` (handlers.py line 19). -/
def DELAY : Nat := 3

/-- An environment, mapping a variable name to its already-parsed integer
value when set (`int(os.getenv(name, default))`). -/
def EnvInt : Type := String → Option Nat

/-- `conf.max_conn = int(os.getenv("TERM_MAX_CONN", 20))` (conf.py line 57). -/
def conf_max_conn (env : EnvInt) : Nat := (env "TERM_MAX_CONN").getD 20

/-- `conf.delay = int(os.getenv("TERM_MAX_CONN", 0))` (conf.py line 58): the
reclamation delay is read from the `TERM_MAX_CONN` environment variable, with
default 0. -/
def conf_delay (env : EnvInt) : Nat := (env "TERM_MAX_CONN").getD 0

/-- The delay actually passed to the reclamation timer:
`self.loop.call_later(conf.delay or DELAY, recycle_minion, minion)`
(handlers.py line 263) — Python `or` falls back to `DELAY` when `conf.delay`
is 0. -/
def reclamation_delay (env : EnvInt) : Nat :=
  if conf_delay env = 0 then DELAY else conf_delay env

/-- An environment with no term1nal variables set. -/
def envEmpty : EnvInt := fun _ => none

/-- An environment with `TERM_MAX_CONN=50` and nothing else set. -/
def envMaxConn50 : EnvInt :=
  fun n => if n = "TERM_MAX_CONN" then some 50 else none

/-- C6: the reclamation delay does default to 3 when nothing is configured,
but it is not an independent setting: it is read from the same
`TERM_MAX_CONN` environment variable as the max-connections cap, so setting
`TERM_MAX_CONN=50` makes the reclamation delay 50 together with the cap. -/
theorem reclamation_delay_coupled_to_max_conn :
    reclamation_delay envEmpty = 3 ∧
    conf_max_conn envMaxConn50 = 50 ∧
    conf_delay envMaxConn50 = 50 ∧
    reclamation_delay envMaxConn50 = 50 := by
  refine ⟨rfl, ?_, ?_, ?_⟩ <;>
    simp [conf_max_conn, conf_delay, reclamation_delay, envMaxConn50]

/-! ### Connect endpoint: `IndexHandler.post`, `get_args`, `get_value` -/

/-- Errors raised while extracting the connect form fields. -/
inductive ArgErr where
  /-- tornado `MissingArgumentError` from `get_argument(name)` with no
  default: the field is absent from the request.  It is an `HTTPError(400)`
  subclass and is not caught by `post`'s `except` clauses. -/
  | missing (name : String)
  /-- `InvalidValueError(f'\x7bname\x7d is missing')` from `get_value` when
  the field is present but empty; `post` maps it to `HTTPError(400)`. -/
  | emptyVal (name : String)
  /-- `ValueError` from `int(...)` on a non-numeric port; caught by `post`'s
  `except (ValueError, ...)` clause. -/
  | badInt (name : String)
deriving DecidableEq, Repr

/-- Value of a decimal digit character, `none` otherwise. -/
def digitVal (c : Char) : Option Nat :=
  if 48 ≤ c.toNat ∧ c.toNat ≤ 57 then some (c.toNat - 48) else none

/-- Accumulating decimal parser over a character list. -/
def parseDigits : List Char → Nat → Option Nat
  | [], acc => some acc
  | c :: rest, acc =>
    match digitVal c with
    | some d => parseDigits rest (acc * 10 + d)
    | none => none

/-- CPython `int(s)` on the strings reaching `get_args` (nonempty form
values), restricted to nonnegative decimals: `none` models the `ValueError`
raised on a non-numeric string. -/
def py_int (s : String) : Option Nat :=
  match s.data with
  | [] => none
  | l => parseDigits l 0

/-- `CommonMixin.get_value` (handlers.py lines 76–85) for form arguments:
`self.get_argument(name)` raises `MissingArgumentError` when absent, and
`get_value` raises `InvalidValueError` when the value is falsy (empty). -/
def get_value (req : String → Option String) (name : String) :
    Except ArgErr String :=
  match req name with
  | none => .error (.missing name)
  | some v => if v = "" then .error (.emptyVal name) else .ok v

/-- `IndexHandler.get_args` (handlers.py lines 200–207): extracts
`hostname`, `port` (via `int(...)`), `username`, `password`, in that order.
No default is applied to any of them; the unused constant `DEFAULT_PORT = 22`
(handlers.py line 20) never enters this path. -/
def get_args (req : String → Option String) :
    Except ArgErr (String × Nat × String × String) := do
  let hostname ← get_value req "hostname"
  let portStr ← get_value req "port"
  let port ← match py_int portStr with
             | some p => Except.ok p
             | none => Except.error (.badInt "port")
  let username ← get_value req "username"
  let password ← get_value req "password"
  Except.ok (hostname, port, username, password)

/-- `term = self.get_argument('term', '') or 'xterm'` in
`IndexHandler.create_minion` (handlers.py line 227). -/
def create_minion_term (req : String → Option String) : String :=
  let t := (req "term").getD ""
  if t = "" then "xterm" else t

/-- Outcome of the SSH handshake performed by the paramiko collaborator. -/
inductive Handshake where
  | ok
  | authFail
  | unreachable
  | sshError (msg : String)
deriving DecidableEq, Repr

/-- `CommonMixin.create_ssh_client` (handlers.py lines 38–48): a socket error
becomes `ValueError('Unable to connect to host:port')`, an authentication
failure becomes `ValueError('Authentication failed.')`; other paramiko
`SSHException`s propagate with their own message (caught later by `post`). -/
def create_ssh_client (hs : Handshake) (host : String) (port : Nat) :
    Except String Unit :=
  match hs with
  | .ok => .ok ()
  | .authFail => .error "Authentication failed."
  | .unreachable =>
      .error ("Unable to connect to " ++ host ++ ":" ++ toString port)
  | .sshError m => .error m

/-- Response of one `IndexHandler.post` request: the HTTP status, the JSON
body fields `id`, `status`, `encoding`, and whether an SSH network call was
attempted. -/
structure PostResult where
  httpStatus : Nat
  id : Option String
  status : Option String
  encoding : Option String
  sshAttempted : Bool
deriving DecidableEq, Repr

/-- `IndexHandler.post` (handlers.py lines 237–265).  `gruCount` is the number
of registry entries already held for the requesting client endpoint
(`len(GRU.get(ip, \x7b\x7d))`), `maxConn` is `conf.max_conn`.  The admission
check `if minions and len(minions) >= conf.max_conn` rejects with
`HTTPError(406)` before `get_args` and before any SSH call.  Then the form
fields are read; a missing field propagates as HTTP 400
(`MissingArgumentError`), an empty one is mapped to HTTP 400, a non-numeric
port is caught by `except ValueError` and reported in the JSON `status`.
Then the handshake runs: an error message lands in `status` with the default
`id=None`, `encoding=None` and HTTP 200; success fills `id` and `encoding`. -/
def index_post (gruCount maxConn : Nat) (req : String → Option String)
    (hs : Handshake) (minionId : String) (detectedEnc : String) : PostResult :=
  if gruCount ≠ 0 ∧ gruCount ≥ maxConn then
    { httpStatus := 406, id := none, status := none, encoding := none,
      sshAttempted := false }
  else
    match get_args req with
    | .error (.missing _) =>
        { httpStatus := 400, id := none, status := none, encoding := none,
          sshAttempted := false }
    | .error (.emptyVal _) =>
        { httpStatus := 400, id := none, status := none, encoding := none,
          sshAttempted := false }
    | .error (.badInt _) =>
        { httpStatus := 200, id := none,
          status := some "invalid literal for int()", encoding := none,
          sshAttempted := false }
    | .ok (host, port, _, _) =>
      match create_ssh_client hs host port with
      | .error msg =>
          { httpStatus := 200, id := none, status := some msg,
            encoding := none, sshAttempted := true }
      | .ok () =>
          { httpStatus := 200, id := some minionId, status := none,
            encoding := some detectedEnc, sshAttempted := true }

/-- A request carrying all four connect fields. -/
def reqFull : String → Option String := fun n =>
  if n = "hostname" then some "h"
  else if n = "port" then some "22"
  else if n = "username" then some "u"
  else if n = "password" then some "pw"
  else none

/-- A request missing only the `port` field. -/
def reqNoPort : String → Option String := fun n =>
  if n = "hostname" then some "h"
  else if n = "username" then some "u"
  else if n = "password" then some "pw"
  else none

/-- Counterexample to C2 as stated: with `max_conn = 0` an endpoint whose
registry holds 0 entries holds at least `max_conn` entries, yet the connect
request is admitted (HTTP 200, SSH call attempted) rather than rejected,
because the code only rejects when the endpoint's registry is nonempty. -/
theorem admission_zero_cap_admits :
    (0 : Nat) ≥ 0 ∧
    index_post 0 0 reqFull Handshake.ok "m1" "utf-8" =
      { httpStatus := 200, id := some "m1", status := none,
        encoding := some "utf-8", sshAttempted := true } := by
  exact ⟨le_refl 0, by decide⟩

/-- C2 (amended): provided `max_conn ≥ 1`, a connect request from an endpoint
already holding at least `max_conn` registry entries is rejected with
HTTP 406 and no SSH call is attempted, and below the cap no admission
rejection occurs. -/
theorem admission_cap_enforced (gruCount maxConn : Nat)
    (req : String → Option String) (hs : Handshake) (mid enc : String)
    (hmax : 1 ≤ maxConn) :
    (maxConn ≤ gruCount →
      index_post gruCount maxConn req hs mid enc =
        { httpStatus := 406, id := none, status := none, encoding := none,
          sshAttempted := false }) ∧
    (gruCount < maxConn →
      (index_post gruCount maxConn req hs mid enc).httpStatus ≠ 406) := by
  constructor
  · intro h
    have hc : gruCount ≠ 0 ∧ gruCount ≥ maxConn := ⟨by omega, h⟩
    simp [index_post, hc]
  · intro h
    have hc : ¬ (gruCount ≠ 0 ∧ gruCount ≥ maxConn) := by omega
    rw [index_post, if_neg hc]
    rcases hga : get_args req with e | a
    · rcases e with n | n | n <;> simp
    · obtain ⟨host, port, u, p⟩ := a
      rcases hcs : create_ssh_client hs host port with msg | u'
      · simp [hcs]
      · simp [hcs]

/-- Witness for C2 (amended): the 20th entry blocks the next connect when
`max_conn = 20`, with no SSH attempt. -/
theorem admission_cap_enforced_witness :
    index_post 20 20 reqFull Handshake.ok "m1" "utf-8" =
      { httpStatus := 406, id := none, status := none, encoding := none,
        sshAttempted := false } :=
  (admission_cap_enforced 20 20 reqFull Handshake.ok "m1" "utf-8"
    (by decide)).1 (by decide)

/-- C7: when the SSH handshake fails with an authentication error, and the
request passes admission and field validation, the connect endpoint responds
with HTTP 200 and JSON body `id = null`, `status = "Authentication failed."`
(and no `encoding`); the error is data in the response, not a process-level
failure. -/
theorem connect_auth_failure_response (gruCount maxConn : Nat)
    (req : String → Option String) (mid enc : String)
    (hadm : ¬ (gruCount ≠ 0 ∧ gruCount ≥ maxConn))
    (args : String × Nat × String × String)
    (hargs : get_args req = .ok args) :
    index_post gruCount maxConn req Handshake.authFail mid enc =
      { httpStatus := 200, id := none,
        status := some "Authentication failed.", encoding := none,
        sshAttempted := true } := by
  obtain ⟨host, port, u, p⟩ := args
  rw [index_post, if_neg hadm, hargs]
  rfl

/-- Witness for C7: a fresh endpoint with valid fields and a failed
authentication gets the 200 body with the exact status string. -/
theorem connect_auth_failure_response_witness :
    index_post 0 20 reqFull Handshake.authFail "m1" "utf-8" =
      { httpStatus := 200, id := none,
        status := some "Authentication failed.", encoding := none,
        sshAttempted := true } :=
  connect_auth_failure_response 0 20 reqFull "m1" "utf-8" (by decide)
    ("h", 22, "u", "pw") rfl

/-- C9: evaluating the code on a connect request that omits `port` — the
field extraction fails with tornado's `MissingArgumentError` and the request
is answered with HTTP 400 and no SSH attempt, instead of defaulting the port
to 22 (the constant `DEFAULT_PORT = 22` exists but is never used).  The
`term` half of the claim does hold: an absent or empty `term` field falls
back to "xterm". -/
theorem connect_missing_port_is_400 :
    get_args reqNoPort = .error (.missing "port") ∧
    index_post 0 20 reqNoPort Handshake.ok "m1" "utf-8" =
      { httpStatus := 400, id := none, status := none, encoding := none,
        sshAttempted := false } ∧
    create_minion_term reqNoPort = "xterm" ∧
    create_minion_term (fun n => if n = "term" then some "" else none)
      = "xterm" ∧
    create_minion_term (fun n => if n = "term" then some "vt100" else none)
      = "vt100" := by
  refine ⟨rfl, by decide, by decide, by decide, by decide⟩

/-! ### WebSocket claim: `WSHandler.open` (handlers.py lines 274–299) -/

/-- The per-endpoint registry: session id → entry, where the entry's
`"minion"` slot is `some m` while the session is unclaimed and `none` after a
claim set it to Python `None`.  The minion itself is abstracted to a `Nat`
handle. -/
def MinionDict : Type := List (String × Option Nat)

/-- The process-wide registry `GRU`: client IP → per-endpoint registry. -/
def Gru : Type := List (String × MinionDict)

/-- Result of one `WSHandler.open` call. -/
inductive OpenResult where
  /-- `self.close(reason=...)` was called; no session handle attached. -/
  | closed (reason : String)
  /-- an uncaught `TypeError`: `minions.get(minion_id)` returned `None` and
  the code subscripted it (`None["minion"]`); Tornado aborts the connection
  without the close reason. -/
  | crash
  /-- the handler received the session handle (`minion.set_handler(self)`). -/
  | attached (m : Nat)
deriving DecidableEq, Repr

/-- Clear the `"minion"` slot of entry `id` (`minions[minion_id]["minion"] =
None`). -/
def claimEntry (minions : MinionDict) (id : String) : MinionDict :=
  List.map (fun kv => if kv.1 = id then (kv.1, none) else kv) minions

/-- Replace endpoint `ip`'s registry in the `GRU`. -/
def claimInGru (gru : Gru) (ip : String) (id : String) : Gru :=
  List.map (fun e => if e.1 = ip then (e.1, claimEntry e.2 id) else e) gru

/-- `WSHandler.open`: `minions = GRU.get(ip)`; a missing or empty dict closes
with "Websocket authentication failed.".  Reading the `id` query argument can
raise (`qid = none` models a missing argument, an empty string raises
`InvalidValueError`), closing with the error text.  Otherwise
`minion = minions.get(minion_id)["minion"]`: an unknown id makes
`minions.get` return `None`, whose subscripting raises `TypeError` (crash); a
present entry with a live minion is claimed (slot set to `None`, handler
attached); an already-claimed entry closes with "Websocket authentication
failed.".  Returns the result and the registry after the call. -/
def ws_open (gru : Gru) (ip : String) (qid : Option String) :
    OpenResult × Gru :=
  match List.lookup ip gru with
  | none => (.closed "Websocket authentication failed.", gru)
  | some minions =>
    if List.isEmpty minions then
      (.closed "Websocket authentication failed.", gru)
    else
      match qid with
      | none => (.closed "Missing argument id", gru)
      | some id =>
        if id = "" then (.closed "id is missing", gru)
        else
          match List.lookup id minions with
          | none => (.crash, gru)
          | some (some m) => (.attached m, claimInGru gru ip id)
          | some none => (.closed "Websocket authentication failed.", gru)

/-- A registry holding one live session `"s1"` (handle 7) for `1.2.3.4`. -/
def gruOneLive : Gru := [("1.2.3.4", [("s1", some 7)])]

/-- C1 evaluated on the code: an id unknown to a nonempty endpoint registry
does not close the connection with "Websocket authentication failed." — it
raises an uncaught `TypeError` (`NoneType` subscripting) instead.  The other
halves of the claim do hold: an endpoint absent from the registry is closed
with the reason, the first claimant receives the handle exactly once, and a
second open of the same id is closed with the reason. -/
theorem ws_open_unknown_id_crashes :
    (ws_open gruOneLive "1.2.3.4" (some "nope")).1 = .crash ∧
    (ws_open gruOneLive "9.9.9.9" (some "s1")).1 =
      .closed "Websocket authentication failed." ∧
    ws_open gruOneLive "1.2.3.4" (some "s1") =
      (.attached 7, [("1.2.3.4", [("s1", none)])]) ∧
    (ws_open [("1.2.3.4", [("s1", none)])] "1.2.3.4" (some "s1")).1 =
      .closed "Websocket authentication failed." := by
  refine ⟨rfl, rfl, ?_, rfl⟩
  simp [ws_open, gruOneLive, claimInGru, claimEntry, List.lookup]

/-! ### WebSocket messages: `WSHandler.on_message` (handlers.py
lines 301–322) -/

/-- Python values produced by `json.loads` on a JSON document. -/
inductive JVal where
  | null
  | boolean (v : Bool)
  | num (n : Int)
  | text (s : String)
  | arr (xs : List JVal)
  | obj (kvs : List (String × JVal))

/-- Python truthiness of a JSON-decoded value. -/
def pyTruthy : JVal → Bool
  | .null => false
  | .boolean v => v
  | .num n => n != 0
  | .text s => !(s == "")
  | .arr xs => !(List.isEmpty xs)
  | .obj kvs => !(List.isEmpty kvs)

/-- Python `len(...)` of a JSON-decoded value: defined for strings, lists and
dicts; `none` models the `TypeError` raised on numbers, booleans and
`None`. -/
def pyLen : JVal → Option Nat
  | .text s => some s.length
  | .arr xs => some xs.length
  | .obj kvs => some kvs.length
  | _ => none

/-- Coercion of a JSON-decoded value to the integer accepted by
`resize_pty`'s struct packing (`bool` is an `int` subclass in Python);
`none` models the `TypeError`/`struct.error` raised otherwise. -/
def pyIntOf : JVal → Option Int
  | .num n => some n
  | .boolean true => some 1
  | .boolean false => some 0
  | _ => none

/-- Python `dict.get(k)`: the stored value, or `None` when absent. -/
def objGet (kvs : List (String × JVal)) (k : String) : JVal :=
  (List.lookup k kvs).getD .null

/-- `minion.chan.resize_pty(*resize)` under
`try: ... except (TypeError, struct.error, paramiko.SSHException): pass` —
`some (rows, cols)` when the call succeeds, `none` when the exception was
swallowed (non-list payloads of length 2 unpack to non-integer arguments;
lists with non-integer elements fail the struct packing). -/
def tryResize : JVal → Option (Int × Int)
  | .arr [x, y] =>
    match pyIntOf x, pyIntOf y with
    | some a, some b => some (a, b)
    | _, _ => none
  | _ => none

/-- Observable outcome of one `WSHandler.on_message` call. -/
structure MsgOutcome where
  /-- an exception escaped `on_message` (Tornado aborts the connection). -/
  crashed : Bool
  /-- the PTY was resized with these dimensions. -/
  resizeApplied : Option (Int × Int)
  /-- this text was appended to `minion.data_to_dst` and written. -/
  dataWritten : Option String
deriving DecidableEq, Repr

/-- The `data` half of `on_message`: `data = msg.get('data')`;
`if data and isinstance(data, str)` appends and writes. -/
def dataPart (kvs : List (String × JVal)) : Option String :=
  match objGet kvs "data" with
  | .text s => if s == "" then none else some s
  | _ => none

/-- `WSHandler.on_message`: `none` input models a `JSONDecodeError` (silently
dropped); a non-dict document is dropped; then
`resize = msg.get('resize'); if resize and len(resize) == 2:` — the `len`
call raises an uncaught `TypeError` on truthy non-sized values (numbers,
`true`), crashing the handler; otherwise a length-2 payload goes through the
guarded `resize_pty` call; finally the `data` field is processed. -/
def on_message (raw : Option JVal) : MsgOutcome :=
  match raw with
  | none => { crashed := false, resizeApplied := none, dataWritten := none }
  | some (.obj kvs) =>
    let resize := objGet kvs "resize"
    if pyTruthy resize then
      match pyLen resize with
      | none => { crashed := true, resizeApplied := none, dataWritten := none }
      | some n =>
        if n = 2 then
          { crashed := false, resizeApplied := tryResize resize,
            dataWritten := dataPart kvs }
        else
          { crashed := false, resizeApplied := none,
            dataWritten := dataPart kvs }
    else
      { crashed := false, resizeApplied := none, dataWritten := dataPart kvs }
  | some _ => { crashed := false, resizeApplied := none, dataWritten := none }

/-- Counterexample to C8 as stated: the message `{"resize": 5}` carries a
resize value that is not a sequence; the claim says it is ignored without
propagating an error, but `len(5)` raises a `TypeError` that escapes
`on_message`, so Tornado aborts the WebSocket connection. -/
theorem on_message_nonsequence_resize_crashes :
    on_message (some (.obj [("resize", .num 5)])) =
      { crashed := true, resizeApplied := none, dataWritten := none } := rfl

/-- C8 (amended): a malformed resize payload that is a sequence — wrong arity,
or two elements that are not both numeric — is ignored without closing the
session and without propagating an error; but a truthy resize value that is
not a sequence (a number or `true`) raises an uncaught `TypeError` that
aborts the connection. -/
theorem on_message_malformed_resize_ignored (kvs : List (String × JVal))
    (xs : List JVal) (hres : objGet kvs "resize" = .arr xs)
    (hbad : xs.length ≠ 2 ∨
      ∃ x y, xs = [x, y] ∧ ((pyIntOf x).isNone ∨ (pyIntOf y).isNone)) :
    (on_message (some (.obj kvs))).crashed = false ∧
    (on_message (some (.obj kvs))).resizeApplied = none := by
  have hmain : on_message (some (.obj kvs)) =
      if List.isEmpty xs then
        { crashed := false, resizeApplied := none, dataWritten := dataPart kvs }
      else if xs.length = 2 then
        { crashed := false, resizeApplied := tryResize (.arr xs),
          dataWritten := dataPart kvs }
      else
        { crashed := false, resizeApplied := none,
          dataWritten := dataPart kvs } := by
    rw [on_message]
    simp only [hres, pyTruthy, pyLen]
    cases xs with
    | nil => simp
    | cons x rest => by_cases hl : (x :: rest).length = 2 <;> simp [hl]
  rcases hbad with hlen | ⟨a, b, hab, hnum⟩
  · rw [hmain]
    by_cases he : List.isEmpty xs <;> simp [he, hlen]
  · subst hab
    rw [hmain]
    simp only [List.isEmpty_cons, List.length_cons, List.length_nil,
      Bool.false_eq_true, if_false, if_pos rfl]
    rcases ha : pyIntOf a with _ | av <;> rcases hb : pyIntOf b with _ | bv <;>
      simp [tryResize, ha, hb] <;> rw [ha, hb] at hnum <;> simp at hnum

/-- Witness for C8 (amended): the message `{"resize": ["a", "b"]}` (right
arity, non-numeric dimensions) is ignored without crash or resize. -/
theorem on_message_malformed_resize_ignored_witness :
    (on_message (some (.obj [("resize", .arr [.text "a", .text "b"])]))).crashed
        = false ∧
    (on_message (some (.obj [("resize",
        .arr [.text "a", .text "b"])]))).resizeApplied = none :=
  on_message_malformed_resize_ignored [("resize", .arr [.text "a", .text "b"])]
    [.text "a", .text "b"] rfl
    (Or.inr ⟨.text "a", .text "b", rfl, Or.inl rfl⟩)

/-! ### `Conf` (conf.py lines 17–43): a dict subclass mirroring items into
instance attributes -/

/-- A `Conf` object: `items` is the underlying `dict` storage, `attrs` is the
instance `__dict__`.  Values are abstracted over a type `V`. -/
structure Conf (V : Type) where
  items : String → Option V
  attrs : String → Option V

/-- `Conf.__setitem__` (conf.py lines 34–36): stores in the dict via
`super().__setitem__`, then mirrors it into `self.__dict__`. -/
def Conf.setitem {V : Type} (c : Conf V) (k : String) (v : V) : Conf V :=
  { items := fun k' => if k' = k then some v else c.items k',
    attrs := fun k' => if k' = k then some v else c.attrs k' }

/-- `Conf.__setattr__` (conf.py lines 31–32): delegates to `__setitem__`. -/
def Conf.setattr {V : Type} (c : Conf V) (k : String) (v : V) : Conf V :=
  c.setitem k v

/-- Dict subscription `conf[k]` (plain `dict.__getitem__`); `none` models the
`KeyError` on an absent key. -/
def Conf.getitem {V : Type} (c : Conf V) (k : String) : Option V :=
  c.items k

/-- Attribute read `conf.k`: Python finds the instance attribute in
`__dict__` first; only when that fails is `Conf.__getattr__` (conf.py
lines 28–29) invoked, which returns `self.get(k)` — the dict value, or
Python `None` (modelled as `none`) instead of raising `AttributeError`. -/
def Conf.getattr {V : Type} (c : Conf V) (k : String) : Option V :=
  match c.attrs k with
  | some v => some v
  | none => c.items k

/-- `Conf.__delitem__` (conf.py lines 41–43): `super().__delitem__(key)` then
`del self.__dict__[key]`.  `none` models a `KeyError` from either delete; the
theorems below only delete keys present in both maps, where the two-step
mutation is indistinguishable from the atomic one modelled here. -/
def Conf.delitem {V : Type} (c : Conf V) (k : String) : Option (Conf V) :=
  match c.items k with
  | none => none
  | some _ =>
    match c.attrs k with
    | none => none
    | some _ =>
      some { items := fun k' => if k' = k then none else c.items k',
             attrs := fun k' => if k' = k then none else c.attrs k' }

/-- `Conf.__delattr__` (conf.py lines 38–39): delegates to `__delitem__`. -/
def Conf.delattr {V : Type} (c : Conf V) (k : String) : Option (Conf V) :=
  c.delitem k

/-- The freshly constructed empty `Conf()` (conf.py line 46). -/
def Conf.empty : Conf Nat := { items := fun _ => none, attrs := fun _ => none }

/-- C10: the `Conf` object keeps dict items and attributes consistent: after
`conf[k] = v` or `conf.k = v`, both `conf[k]` and `conf.k` read `v`; deleting
a set key by either route removes both forms; and reading an attribute that
was never set returns `None` (via `__getattr__` falling back to
`self.get`) rather than raising. -/
theorem conf_dict_attr_consistent (c : Conf Nat) (k : String) (v : Nat) :
    ((c.setitem k v).getitem k = some v ∧ (c.setitem k v).getattr k = some v) ∧
    ((c.setattr k v).getitem k = some v ∧ (c.setattr k v).getattr k = some v) ∧
    (∃ c', (c.setitem k v).delitem k = some c' ∧
      c'.getitem k = none ∧ c'.getattr k = none) ∧
    (∃ c', (c.setattr k v).delattr k = some c' ∧
      c'.getitem k = none ∧ c'.getattr k = none) ∧
    (∀ c₀ : Conf Nat, c₀.items k = none → c₀.attrs k = none →
      c₀.getattr k = none) := by
  have hset : ∀ c₁ : Conf Nat,
      (c₁.setitem k v).getitem k = some v ∧
      (c₁.setitem k v).getattr k = some v := by
    intro c₁
    constructor
    · simp [Conf.setitem, Conf.getitem]
    · simp [Conf.setitem, Conf.getattr]
  have hdel : ∀ c₁ : Conf Nat, ∃ c', (c₁.setitem k v).delitem k = some c' ∧
      c'.getitem k = none ∧ c'.getattr k = none := by
    intro c₁
    refine ⟨{ items := fun k' => if k' = k then none
                else (c₁.setitem k v).items k',
              attrs := fun k' => if k' = k then none
                else (c₁.setitem k v).attrs k' }, ?_, ?_, ?_⟩
    · simp [Conf.delitem, Conf.setitem]
    · simp [Conf.getitem]
    · simp [Conf.getattr]
  refine ⟨hset c, hset c, hdel c, hdel c, ?_⟩
  intro c₀ hi ha
  simp [Conf.getattr, hi, ha]

/-- Witness for C10: on the empty configuration, setting then reading works
both ways, and reading a never-set attribute yields `None`. -/
theorem conf_dict_attr_consistent_witness :
    ((Conf.empty.setitem "x" 5).getitem "x" = some 5 ∧
      (Conf.empty.setitem "x" 5).getattr "x" = some 5) ∧
    Conf.empty.getattr "y" = none :=
  ⟨(conf_dict_attr_consistent Conf.empty "x" 5).1,
    (conf_dict_attr_consistent Conf.empty "y" 0).2.2.2.2 Conf.empty rfl rfl⟩
